import Mathlib

/-!
# kinectUI: the magnifier's zoom factor, source rectangle and gesture constants

A shallow embedding of `milestone2/Magnifier.cpp` and `milestone2/GestureDetector.h`.

Floating-point quantities (`float magnificationFloor`, the distance, the returned factor)
are read over the rationals `ℚ`: every comparison and every arithmetic step of the source is
kept, only rounding is left out.  `LONG`/`int` quantities are read as `Int`.

Global variables that a function reads become arguments; global variables that a function
writes are returned next to the function's own result.
-/

namespace KinectUI

/-! ## Zoom factor (`Magnifier.cpp`, `GetMagnificationFactor`) -/

/-- What one call of `GetMagnificationFactor` leaves behind: the value it returns and the
process-wide `magnificationFloor` after the call. -/
structure FactorCall where
  /-- The returned `float`. -/
  result : ℚ
  /-- The global `magnificationFloor` once the call has returned. -/
  magnificationFloor : ℚ
  deriving DecidableEq

/-- `float GetMagnificationFactor()` (Magnifier.cpp 610-643).
The globals `distanceInMM` (declared in a header that is not part of the sources at hand; any
numeric type embeds in `ℚ`) and `magnificationFloor` are the two arguments. -/
def GetMagnificationFactor (distanceInMM magnificationFloor : ℚ) : FactorCall :=
  if distanceInMM < 1000 then
    { result := 1, magnificationFloor := magnificationFloor }
  else
    -- Make sure the floor isn't a ridiculous value
    let floor₁ := if magnificationFloor > 8 then 8 else magnificationFloor
    let floor₂ := if floor₁ < -8 then -8 else floor₁
    let convertedDistance := distanceInMM / 1000 + floor₂
    if convertedDistance < 1 then
      { result := 1, magnificationFloor := floor₂ }
    else if convertedDistance > 32 then
      { result := 32, magnificationFloor := floor₂ }
    else
      { result := convertedDistance, magnificationFloor := floor₂ }

/-- Specification-side clamp of `x` to the interval `[lo, hi]`. -/
def clamp (x lo hi : ℚ) : ℚ := max lo (min x hi)

/-! ## Source rectangle (`Magnifier.cpp`, `GetSourceRect`) -/

/-- The Win32 `RECT`: four `LONG` fields. -/
structure RECT where
  left : Int
  top : Int
  right : Int
  bottom : Int
  deriving DecidableEq, Repr

/-- The Win32 `POINT`. -/
structure POINT where
  x : Int
  y : Int
  deriving DecidableEq, Repr

/-- The C conversion `(int)` of a floating value: the fractional part is discarded
(truncation toward zero). -/
def truncToInt (q : ℚ) : Int := q.num.tdiv q.den

/-- `int width = (int)((magWindowRect.right - magWindowRect.left) / MagFactor);`
(Magnifier.cpp 390). -/
def sourceWidth (magWindowRect : RECT) (MagFactor : ℚ) : Int :=
  truncToInt (((magWindowRect.right - magWindowRect.left : Int) : ℚ) / MagFactor)

/-- `int height = (int)((magWindowRect.bottom - magWindowRect.top) / MagFactor);`
(Magnifier.cpp 391). -/
def sourceHeight (magWindowRect : RECT) (MagFactor : ℚ) : Int :=
  truncToInt (((magWindowRect.bottom - magWindowRect.top : Int) : ℚ) / MagFactor)

/-- `RECT GetSourceRect()` (Magnifier.cpp 388-420).  The globals `magWindowRect` and
`MagFactor`, the cursor position delivered by `GetCursorPos` and the two screen metrics
`GetSystemMetrics(SM_CXSCREEN)`, `GetSystemMetrics(SM_CYSCREEN)` are arguments.  `width / 2` is
C integer division, `Int.tdiv`.  `LONG` arithmetic is read in `Int`: with a cursor on the
desktop and a source no larger than the screen every intermediate value is far from the
32-bit limits. -/
def GetSourceRect (magWindowRect : RECT) (MagFactor : ℚ) (mousePoint : POINT)
    (cxScreen cyScreen : Int) : RECT :=
  let width := sourceWidth magWindowRect MagFactor
  let height := sourceHeight magWindowRect MagFactor
  let left₀ := mousePoint.x - width.tdiv 2
  let top₀ := mousePoint.y - height.tdiv 2
  -- Don't scroll outside desktop area.
  let left₁ := if left₀ < 0 then 0 else left₀
  let left₂ := if left₁ > cxScreen - width then cxScreen - width else left₁
  let right := left₂ + width
  let top₁ := if top₀ < 0 then 0 else top₀
  let top₂ := if top₁ > cyScreen - height then cyScreen - height else top₁
  let bottom := top₂ + height
  { left := left₂, top := top₂, right := right, bottom := bottom }

/-! ## Viewfinder and lens (`Magnifier.cpp`, `SetupViewfinder`, `ApplyLensRestrictions`) -/

/-- The assignments of `SetupViewfinder` to the global `viewfinderWindowRect`
(Magnifier.cpp 313-318) for the screen resolution `xRes × yRes`.  The rectangle is handed to
`CreateWindowEx` as `x, y, nWidth, nHeight`: its `right` and `bottom` fields hold the width
and the height of the viewfinder, a fifth of the screen each. -/
def SetupViewfinder (xRes yRes : Int) : RECT :=
  { top := yRes - yRes.tdiv 5
    bottom := yRes.tdiv 5
    left := 0
    right := xRes.tdiv 5 }

/-- `void ApplyLensRestrictions (RECT sourceRect)` (Magnifier.cpp 332-347).  The global
`viewfinderWindowRect` is an argument; the global `lensWindowRect`, whose four fields are all
overwritten, is the result.  As for the viewfinder, `right` and `bottom` of the lens hold its
width and height.  `/ 5` is C integer division, `Int.tdiv`. -/
def ApplyLensRestrictions (viewfinderWindowRect sourceRect : RECT) : RECT :=
  let left₀ := viewfinderWindowRect.left + sourceRect.left.tdiv 5
  let top₀ := viewfinderWindowRect.top + sourceRect.top.tdiv 5
  let right := (sourceRect.right - sourceRect.left).tdiv 5
  let bottom := (sourceRect.bottom - sourceRect.top).tdiv 5
  let left₁ :=
    if left₀ + right > viewfinderWindowRect.left + viewfinderWindowRect.right then
      viewfinderWindowRect.left + viewfinderWindowRect.right - right
    else left₀
  let top₁ :=
    if top₀ + bottom > viewfinderWindowRect.top + viewfinderWindowRect.bottom then
      viewfinderWindowRect.top + viewfinderWindowRect.bottom - bottom
    else top₀
  { left := left₁, top := top₁, right := right, bottom := bottom }

/-! ## Gesture constants and joint proximity (`GestureDetector.h`) -/

/-- `const long long timeout = 50000000;` (GestureDetector.h 18), counted in the 100 ns
intervals of `getTimeIn100NSIntervals`. -/
def timeout : Int := 50000000

/-- Length in nanoseconds of one clock interval (`getTimeIn100NSIntervals`). -/
def nsPerInterval : Int := 100

/-- Number of 100 ns intervals in one second: `10^9 ns / 100 ns`. -/
def intervalsPerSecond : Int := 1000000000 / nsPerInterval

/-- The SDK's `Vector4`: a joint position with its unused fourth component. -/
structure Vector4 where
  x : ℚ
  y : ℚ
  z : ℚ
  w : ℚ
  deriving DecidableEq

/-- Square of the Euclidean distance between two joint positions (the three spatial
components). -/
def distSq (obj1 obj2 : Vector4) : ℚ :=
  (obj1.x - obj2.x) ^ 2 + (obj1.y - obj2.y) ^ 2 + (obj1.z - obj2.z) ^ 2

/-- Modelled from the spec: the body of `GestureDetector::areClose` lives in
`GestureDetector.cpp`, which is not among the sources; only its declaration
`bool areClose(Vector4 &obj1, Vector4 &obj2, double range)` (GestureDetector.h 53) is.
The specification (§4.2) says it "returns true iff the Euclidean distance between two 3-D
joint positions is less than `range`", and that a negative `range` gives "always false".
To stay executable over `ℚ` the comparison of the distance with `range` is made on the
squares, for a non-negative `range`. -/
def areClose (obj1 obj2 : Vector4) (range : ℚ) : Bool :=
  decide (0 ≤ range ∧ distSq obj1 obj2 < range ^ 2)

/-! ### Helper facts -/

theorem clamp_of_lt {x lo hi : ℚ} (h : x < lo) (hlh : lo ≤ hi) : clamp x lo hi = lo := by
  unfold clamp
  rw [min_eq_left (by linarith), max_eq_left (by linarith)]

theorem clamp_of_gt {x lo hi : ℚ} (h : hi < x) (hlh : lo ≤ hi) : clamp x lo hi = hi := by
  unfold clamp
  rw [min_eq_right (by linarith), max_eq_right hlh]

theorem clamp_of_mem {x lo hi : ℚ} (h₁ : lo ≤ x) (h₂ : x ≤ hi) : clamp x lo hi = x := by
  unfold clamp
  rw [min_eq_left h₂, max_eq_right h₁]

theorem clamp_mono {x y lo hi : ℚ} (h : x ≤ y) : clamp x lo hi ≤ clamp y lo hi := by
  unfold clamp
  exact max_le_max le_rfl (min_le_min h le_rfl)

/-- Below one metre the function returns `1` and does not touch the floor. -/
theorem GetMagnificationFactor_near {d : ℚ} (f : ℚ) (hd : d < 1000) :
    GetMagnificationFactor d f = { result := 1, magnificationFloor := f } := by
  unfold GetMagnificationFactor
  rw [if_pos hd]

/-- From one metre on: the floor is clamped to `[-8, 8]`, stored, and the returned value is
the clamp to `[1, 32]` of the distance in metres plus that floor. -/
theorem GetMagnificationFactor_far {d : ℚ} (f : ℚ) (hd : 1000 ≤ d) :
    GetMagnificationFactor d f =
      { result := clamp (d / 1000 + clamp f (-8) 8) 1 32,
        magnificationFloor := clamp f (-8) 8 } := by
  have hfloor : (if (if f > 8 then 8 else f) < -8 then (-8 : ℚ) else (if f > 8 then 8 else f))
      = clamp f (-8) 8 := by
    by_cases h8 : f > 8
    · rw [if_pos h8, if_neg (by norm_num), clamp_of_gt h8 (by norm_num)]
    · rw [if_neg h8]
      by_cases hm : f < -8
      · rw [if_pos hm, clamp_of_lt hm (by norm_num)]
      · rw [if_neg hm, clamp_of_mem (not_lt.mp hm) (not_lt.mp h8)]
  unfold GetMagnificationFactor
  rw [if_neg (not_lt.mpr hd)]
  simp only [hfloor]
  by_cases h1 : d / 1000 + clamp f (-8) 8 < 1
  · rw [if_pos h1, clamp_of_lt h1 (by norm_num)]
  · rw [if_neg h1]
    by_cases h32 : d / 1000 + clamp f (-8) 8 > 32
    · rw [if_pos h32, clamp_of_gt h32 (by norm_num)]
    · rw [if_neg h32, clamp_of_mem (not_lt.mp h1) (not_lt.mp h32)]

theorem clamp_bounds (x : ℚ) {lo hi : ℚ} (hlh : lo ≤ hi) :
    lo ≤ clamp x lo hi ∧ clamp x lo hi ≤ hi := by
  unfold clamp
  exact ⟨le_max_left _ _, max_le hlh (min_le_right _ _)⟩

theorem clamp_idem (x : ℚ) {lo hi : ℚ} (hlh : lo ≤ hi) :
    clamp (clamp x lo hi) lo hi = clamp x lo hi :=
  clamp_of_mem (clamp_bounds x hlh).1 (clamp_bounds x hlh).2

/-- The returned factor always lies in `[1, 32]`. -/
theorem result_mem_Icc (d f : ℚ) :
    1 ≤ (GetMagnificationFactor d f).result ∧ (GetMagnificationFactor d f).result ≤ 32 := by
  by_cases hd : d < 1000
  · rw [GetMagnificationFactor_near f hd]
    norm_num
  · rw [GetMagnificationFactor_far f (not_lt.mp hd)]
    exact clamp_bounds _ (by norm_num)

/-! ## The zoom factor: claims -/

/-- C1: for every distance `d ≥ 1000` mm and every floor `f` with `-8 ≤ f ≤ 8`,
`GetMagnificationFactor` returns exactly `clamp (d / 1000 + f) 1 32`; in particular
`d = 2000, f = 0` gives `2`, `d = 40000, f = 8` gives `32` and `d = 1000, f = -8` gives `1`. -/
theorem GetMagnificationFactor_eq_clamp (d f : ℚ) (hd : 1000 ≤ d) (hlo : -8 ≤ f)
    (hhi : f ≤ 8) :
    (GetMagnificationFactor d f).result = clamp (d / 1000 + f) 1 32
      ∧ (GetMagnificationFactor 2000 0).result = 2
      ∧ (GetMagnificationFactor 40000 8).result = 32
      ∧ (GetMagnificationFactor 1000 (-8)).result = 1 := by
  refine ⟨?_, ?_, ?_, ?_⟩
  · rw [GetMagnificationFactor_far f hd, clamp_of_mem hlo hhi]
  · norm_num [GetMagnificationFactor]
  · norm_num [GetMagnificationFactor]
  · norm_num [GetMagnificationFactor]

/-- C1 at `d = 2000`, `f = 0`. -/
theorem GetMagnificationFactor_eq_clamp_witness :
    (1000 : ℚ) ≤ 2000 ∧ (-8 : ℚ) ≤ 0 ∧ (0 : ℚ) ≤ 8
      ∧ (GetMagnificationFactor 2000 0).result = clamp (2000 / 1000 + 0) 1 32 :=
  ⟨by norm_num, by norm_num, by norm_num,
    (GetMagnificationFactor_eq_clamp 2000 0 (by norm_num) (by norm_num) (by norm_num)).1⟩

/-- C2: for every distance `d < 1000` mm and every value of the floor, in range or not,
`GetMagnificationFactor` returns exactly `1`. -/
theorem GetMagnificationFactor_below_threshold (d f : ℚ) (hd : d < 1000) :
    (GetMagnificationFactor d f).result = 1 := by
  rw [GetMagnificationFactor_near f hd]

/-- C2 at `d = 999`, with the out-of-range floor `f = 100`. -/
theorem GetMagnificationFactor_below_threshold_witness :
    (999 : ℚ) < 1000 ∧ (GetMagnificationFactor 999 100).result = 1 :=
  ⟨by norm_num, GetMagnificationFactor_below_threshold 999 100 (by norm_num)⟩

/-- C3: for every distance and every floor, also one outside `[-8, 8]`, the factor returned by
`GetMagnificationFactor` satisfies `1 ≤ factor ≤ 32`. -/
theorem GetMagnificationFactor_result_bounds (d f : ℚ) :
    1 ≤ (GetMagnificationFactor d f).result ∧ (GetMagnificationFactor d f).result ≤ 32 :=
  result_mem_Icc d f

/-- C4: a floor outside `[-8, 8]` is clamped before use: for every distance `d` and floor `f`
the factor returned with floor `f` is the factor returned with floor `clamp f (-8) 8`; for
example floor `10` behaves as floor `8`. -/
theorem GetMagnificationFactor_floor_clamped_before_use (d f : ℚ) :
    (GetMagnificationFactor d f).result = (GetMagnificationFactor d (clamp f (-8) 8)).result
      ∧ (GetMagnificationFactor d 10).result = (GetMagnificationFactor d 8).result := by
  have key : ∀ g : ℚ, (GetMagnificationFactor d g).result
      = (GetMagnificationFactor d (clamp g (-8) 8)).result := by
    intro g
    by_cases hd : d < 1000
    · rw [GetMagnificationFactor_near g hd, GetMagnificationFactor_near _ hd]
    · rw [GetMagnificationFactor_far g (not_lt.mp hd),
        GetMagnificationFactor_far _ (not_lt.mp hd), clamp_idem g (by norm_num)]
  refine ⟨key f, ?_⟩
  have h10 : clamp 10 (-8) 8 = 8 := clamp_of_gt (by norm_num) (by norm_num)
  rw [key 10, h10]

/-- C5, as stated, fails: at `d = 500` mm the call returns before the clamp, so a floor of
`10` is still `10` after the call. -/
theorem magnificationFloor_unclamped_below_threshold :
    (GetMagnificationFactor 500 10).magnificationFloor = 10
      ∧ ¬ (-8 ≤ (GetMagnificationFactor 500 10).magnificationFloor
            ∧ (GetMagnificationFactor 500 10).magnificationFloor ≤ 8) := by
  rw [GetMagnificationFactor_near 10 (by norm_num)]
  norm_num

/-- C5, amended: after a call of `GetMagnificationFactor` at a distance `d ≥ 1000` (whatever
the floor was), or with a floor that was already within `[-8, 8]` (whatever the distance),
`magnificationFloor` lies in `[-8, 8]`; and a call at `d < 1000` leaves the floor as it was,
whatever the floor was, in range or not. -/
theorem magnificationFloor_clamped_after_call (d f : ℚ) :
    ((1000 ≤ d ∨ (-8 ≤ f ∧ f ≤ 8)) →
        -8 ≤ (GetMagnificationFactor d f).magnificationFloor
          ∧ (GetMagnificationFactor d f).magnificationFloor ≤ 8)
      ∧ (d < 1000 → (GetMagnificationFactor d f).magnificationFloor = f) := by
  refine ⟨fun h => ?_, fun hd => by rw [GetMagnificationFactor_near f hd]⟩
  by_cases hd : d < 1000
  · rw [GetMagnificationFactor_near f hd]
    rcases h with h | h
    · exact absurd hd (not_lt.mpr h)
    · exact h
  · rw [GetMagnificationFactor_far f (not_lt.mp hd)]
    exact clamp_bounds f (by norm_num)

/-- C5 amended, at `d = 5000` with the out-of-range floor `10` (the floor ends in range), and
at `d = 500` with the out-of-range floor `-10` (the floor is left at `-10`). -/
theorem magnificationFloor_clamped_after_call_witness :
    (((1000 : ℚ) ≤ 5000 ∨ ((-8 : ℚ) ≤ 10 ∧ (10 : ℚ) ≤ 8))
        ∧ -8 ≤ (GetMagnificationFactor 5000 10).magnificationFloor
        ∧ (GetMagnificationFactor 5000 10).magnificationFloor ≤ 8)
      ∧ ((500 : ℚ) < 1000 ∧ (GetMagnificationFactor 500 (-10)).magnificationFloor = -10) :=
  ⟨⟨Or.inl (by norm_num),
      (magnificationFloor_clamped_after_call 5000 10).1 (Or.inl (by norm_num))⟩,
    by norm_num, (magnificationFloor_clamped_after_call 500 (-10)).2 (by norm_num)⟩

/-- C6: `GetMagnificationFactor` has no side effect other than clamping an out-of-range
floor: the floor after the call is the floor before it or its clamp to `[-8, 8]`; a floor
already within `[-8, 8]` is unchanged; and a second call at the same distance returns the
same factor and leaves the floor as the first call left it. -/
theorem GetMagnificationFactor_frame (d f : ℚ) :
    ((GetMagnificationFactor d f).magnificationFloor = f
        ∨ (GetMagnificationFactor d f).magnificationFloor = clamp f (-8) 8)
      ∧ (-8 ≤ f → f ≤ 8 → (GetMagnificationFactor d f).magnificationFloor = f)
      ∧ GetMagnificationFactor d (GetMagnificationFactor d f).magnificationFloor
          = GetMagnificationFactor d f := by
  by_cases hd : d < 1000
  · refine ⟨Or.inl ?_, fun _ _ => ?_, ?_⟩
    · rw [GetMagnificationFactor_near f hd]
    · rw [GetMagnificationFactor_near f hd]
    · rw [GetMagnificationFactor_near f hd, GetMagnificationFactor_near f hd]
  · have hd' : 1000 ≤ d := not_lt.mp hd
    refine ⟨Or.inr ?_, fun h₁ h₂ => ?_, ?_⟩
    · rw [GetMagnificationFactor_far f hd']
    · rw [GetMagnificationFactor_far f hd', clamp_of_mem h₁ h₂]
    · rw [GetMagnificationFactor_far f hd', GetMagnificationFactor_far _ hd',
        clamp_idem f (by norm_num)]

/-- C6 at `d = 2000` with the in-range floor `3`: the floor stays `3` and a second call
repeats the first. -/
theorem GetMagnificationFactor_frame_witness :
    (GetMagnificationFactor 2000 3).magnificationFloor = 3
      ∧ GetMagnificationFactor 2000 (GetMagnificationFactor 2000 3).magnificationFloor
          = GetMagnificationFactor 2000 3 :=
  ⟨(GetMagnificationFactor_frame 2000 3).2.1 (by norm_num) (by norm_num),
    (GetMagnificationFactor_frame 2000 3).2.2⟩

/-! ## Gesture constants, joint proximity, source rectangle: claims -/

/-- C7, as stated, fails: `timeout` is `50000000` intervals of 100 ns, but that is not the
number of such intervals in one second (`10000000`). -/
theorem timeout_ne_one_second :
    ¬ (timeout = 50000000 ∧ intervalsPerSecond = 10000000 ∧ timeout = intervalsPerSecond) := by
  decide

/-- C7, amended: `timeout` is `50000000` in 100 ns intervals, which is five seconds: five
times the `10000000` intervals that make one second. -/
theorem timeout_eq_five_seconds :
    timeout = 50000000 ∧ intervalsPerSecond = 10000000
      ∧ timeout = 5 * intervalsPerSecond := by
  decide

/-- The squared distance is never negative. -/
theorem distSq_nonneg (a b : Vector4) : 0 ≤ distSq a b := by
  unfold distSq
  positivity

/-- A position is at squared distance `0` from itself. -/
theorem distSq_self (a : Vector4) : distSq a a = 0 := by
  simp [distSq]

/-- C8: for all joint positions `a`, `b` and every range `r ≥ 0`, `areClose a b r` is true
if and only if the Euclidean distance between `a` and `b` (the real square root of the sum
of the squared coordinate differences) is strictly less than `r`; it is false for identical
positions and `r = 0`, and false for every negative range. -/
theorem areClose_iff_dist_lt (a b : Vector4) (r : ℚ) (hr : 0 ≤ r) :
    (areClose a b r = true ↔ Real.sqrt ((distSq a b : ℚ) : ℝ) < (r : ℝ))
      ∧ areClose a a 0 = false
      ∧ (∀ s : ℚ, s < 0 → areClose a b s = false) := by
  refine ⟨?_, ?_, ?_⟩
  · have hcast : ((distSq a b : ℚ) : ℝ) < (r : ℝ) ^ 2 ↔ distSq a b < r ^ 2 := by
      exact_mod_cast Iff.rfl
    rcases hr.eq_or_lt with h0 | hpos
    · subst h0
      have hns : ¬ Real.sqrt ((distSq a b : ℚ) : ℝ) < ((0 : ℚ) : ℝ) := by
        rw [Rat.cast_zero]
        exact not_lt.mpr (Real.sqrt_nonneg _)
      have hnd : ¬ distSq a b < 0 := not_lt.mpr (distSq_nonneg a b)
      simp [areClose, hns, hnd]
    · have hposR : (0 : ℝ) < (r : ℝ) := by exact_mod_cast hpos
      rw [Real.sqrt_lt' hposR, hcast]
      simp [areClose, hr]
  · simp [areClose, distSq_self]
  · intro s hs
    simp [areClose, not_le.mpr hs]

/-- C8 at `a = (0,0,0)`, `b = (3,4,0)` (distance `5`) and range `6`. -/
theorem areClose_iff_dist_lt_witness :
    (0 : ℚ) ≤ 6
      ∧ (areClose ⟨0, 0, 0, 1⟩ ⟨3, 4, 0, 1⟩ 6 = true
          ↔ Real.sqrt ((distSq ⟨0, 0, 0, 1⟩ ⟨3, 4, 0, 1⟩ : ℚ) : ℝ) < ((6 : ℚ) : ℝ)) :=
  ⟨by norm_num, (areClose_iff_dist_lt ⟨0, 0, 0, 1⟩ ⟨3, 4, 0, 1⟩ 6 (by norm_num)).1⟩

/-- C9: `GetSourceRect` does not scroll outside the desktop area: for every cursor position
and screen size `W × H`, when the computed source width and height satisfy
`0 ≤ width ≤ W` and `0 ≤ height ≤ H`, the returned rectangle has `0 ≤ left`,
`right = left + width ≤ W`, `0 ≤ top` and `bottom = top + height ≤ H`. -/
theorem GetSourceRect_inside_desktop (magWindowRect : RECT) (MagFactor : ℚ)
    (mousePoint : POINT) (W H : Int)
    (_hw₀ : 0 ≤ sourceWidth magWindowRect MagFactor)
    (hw₁ : sourceWidth magWindowRect MagFactor ≤ W)
    (_hh₀ : 0 ≤ sourceHeight magWindowRect MagFactor)
    (hh₁ : sourceHeight magWindowRect MagFactor ≤ H) :
    0 ≤ (GetSourceRect magWindowRect MagFactor mousePoint W H).left
      ∧ (GetSourceRect magWindowRect MagFactor mousePoint W H).right
          = (GetSourceRect magWindowRect MagFactor mousePoint W H).left
              + sourceWidth magWindowRect MagFactor
      ∧ (GetSourceRect magWindowRect MagFactor mousePoint W H).right ≤ W
      ∧ 0 ≤ (GetSourceRect magWindowRect MagFactor mousePoint W H).top
      ∧ (GetSourceRect magWindowRect MagFactor mousePoint W H).bottom
          = (GetSourceRect magWindowRect MagFactor mousePoint W H).top
              + sourceHeight magWindowRect MagFactor
      ∧ (GetSourceRect magWindowRect MagFactor mousePoint W H).bottom ≤ H := by
  simp only [GetSourceRect]
  generalize sourceWidth magWindowRect MagFactor = width at hw₁ ⊢
  generalize sourceHeight magWindowRect MagFactor = height at hh₁ ⊢
  generalize mousePoint.x - width.tdiv 2 = l
  generalize mousePoint.y - height.tdiv 2 = t
  refine ⟨?_, trivial, ?_, ?_, trivial, ?_⟩ <;> split_ifs <;> omega

/-- C9 on a 1920 × 1080 screen at magnification `3` with the cursor near the lower right
corner: the source is 640 × 360. -/
theorem GetSourceRect_inside_desktop_witness :
    (0 ≤ sourceWidth ⟨0, 0, 1920, 1080⟩ 3 ∧ sourceWidth ⟨0, 0, 1920, 1080⟩ 3 ≤ 1920)
      ∧ (0 ≤ sourceHeight ⟨0, 0, 1920, 1080⟩ 3 ∧ sourceHeight ⟨0, 0, 1920, 1080⟩ 3 ≤ 1080)
      ∧ 0 ≤ (GetSourceRect ⟨0, 0, 1920, 1080⟩ 3 ⟨1900, 1000⟩ 1920 1080).left
      ∧ (GetSourceRect ⟨0, 0, 1920, 1080⟩ 3 ⟨1900, 1000⟩ 1920 1080).right ≤ 1920
      ∧ 0 ≤ (GetSourceRect ⟨0, 0, 1920, 1080⟩ 3 ⟨1900, 1000⟩ 1920 1080).top
      ∧ (GetSourceRect ⟨0, 0, 1920, 1080⟩ 3 ⟨1900, 1000⟩ 1920 1080).bottom ≤ 1080 := by
  have hw : sourceWidth ⟨0, 0, 1920, 1080⟩ 3 = 640 := by
    norm_num [sourceWidth, truncToInt]
  have hh : sourceHeight ⟨0, 0, 1920, 1080⟩ 3 = 360 := by
    norm_num [sourceHeight, truncToInt]
  have key := GetSourceRect_inside_desktop ⟨0, 0, 1920, 1080⟩ 3 ⟨1900, 1000⟩ 1920 1080
    (by rw [hw]; decide) (by rw [hw]; decide) (by rw [hh]; decide) (by rw [hh]; decide)
  refine ⟨⟨?_, ?_⟩, ⟨?_, ?_⟩, key.1, key.2.2.1, key.2.2.2.1, key.2.2.2.2.2⟩
  · rw [hw]; decide
  · rw [hw]; decide
  · rw [hh]; decide
  · rw [hh]; decide

/-- C10: `GetMagnificationFactor` is monotone non-decreasing in the distance: for every
starting floor `f` and all distances `d₁ ≤ d₂` the factor returned for `d₁` is at most the
factor returned for `d₂`, also across the 1000 mm threshold. -/
theorem GetMagnificationFactor_mono (f d₁ d₂ : ℚ) (h : d₁ ≤ d₂) :
    (GetMagnificationFactor d₁ f).result ≤ (GetMagnificationFactor d₂ f).result := by
  by_cases h₁ : d₁ < 1000
  · rw [GetMagnificationFactor_near f h₁]
    exact (result_mem_Icc d₂ f).1
  · have h₁' : 1000 ≤ d₁ := not_lt.mp h₁
    rw [GetMagnificationFactor_far f h₁', GetMagnificationFactor_far f (le_trans h₁' h)]
    exact clamp_mono (by linarith)

/-- C10 across the threshold: `d₁ = 999`, `d₂ = 3000`, floor `0`. -/
theorem GetMagnificationFactor_mono_witness :
    (999 : ℚ) ≤ 3000
      ∧ (GetMagnificationFactor 999 0).result ≤ (GetMagnificationFactor 3000 0).result :=
  ⟨by norm_num, GetMagnificationFactor_mono 0 999 3000 (by norm_num)⟩

/-! ## The lens inside the viewfinder: claim -/

/-- C11: `ApplyLensRestrictions` keeps the lens inside the viewfinder.  With `right`/`bottom`
holding width/height, for every source rectangle with `0 ≤ left ≤ right`,
`0 ≤ top ≤ bottom`, `(right - left) / 5 ≤` viewfinder width and `(bottom - top) / 5 ≤`
viewfinder height (truncating division), after the call the lens starts at or after the
viewfinder's left and top edges, ends at or before its right and bottom edges, and has width
`(right - left) / 5` and height `(bottom - top) / 5`. -/
theorem ApplyLensRestrictions_inside_viewfinder (viewfinderWindowRect sourceRect : RECT)
    (hl : 0 ≤ sourceRect.left) (_hlr : sourceRect.left ≤ sourceRect.right)
    (ht : 0 ≤ sourceRect.top) (_htb : sourceRect.top ≤ sourceRect.bottom)
    (hw : (sourceRect.right - sourceRect.left).tdiv 5 ≤ viewfinderWindowRect.right)
    (hh : (sourceRect.bottom - sourceRect.top).tdiv 5 ≤ viewfinderWindowRect.bottom) :
    viewfinderWindowRect.left ≤ (ApplyLensRestrictions viewfinderWindowRect sourceRect).left
      ∧ (ApplyLensRestrictions viewfinderWindowRect sourceRect).left
            + (ApplyLensRestrictions viewfinderWindowRect sourceRect).right
          ≤ viewfinderWindowRect.left + viewfinderWindowRect.right
      ∧ viewfinderWindowRect.top ≤ (ApplyLensRestrictions viewfinderWindowRect sourceRect).top
      ∧ (ApplyLensRestrictions viewfinderWindowRect sourceRect).top
            + (ApplyLensRestrictions viewfinderWindowRect sourceRect).bottom
          ≤ viewfinderWindowRect.top + viewfinderWindowRect.bottom
      ∧ (ApplyLensRestrictions viewfinderWindowRect sourceRect).right
          = (sourceRect.right - sourceRect.left).tdiv 5
      ∧ (ApplyLensRestrictions viewfinderWindowRect sourceRect).bottom
          = (sourceRect.bottom - sourceRect.top).tdiv 5 := by
  have hx : 0 ≤ sourceRect.left.tdiv 5 := Int.tdiv_nonneg hl (by decide)
  have hy : 0 ≤ sourceRect.top.tdiv 5 := Int.tdiv_nonneg ht (by decide)
  simp only [ApplyLensRestrictions]
  generalize (sourceRect.right - sourceRect.left).tdiv 5 = width at hw ⊢
  generalize (sourceRect.bottom - sourceRect.top).tdiv 5 = height at hh ⊢
  generalize sourceRect.left.tdiv 5 = x at hx ⊢
  generalize sourceRect.top.tdiv 5 = y at hy ⊢
  refine ⟨?_, ?_, ?_, ?_, trivial, trivial⟩ <;> split_ifs <;> omega

/-- C11 on a 1920 × 1080 screen, with the viewfinder `SetupViewfinder` creates and the source
rectangle in the lower right corner of the desktop: the lens is 128 × 72 and touches the
viewfinder's right and bottom edges. -/
theorem ApplyLensRestrictions_inside_viewfinder_witness :
    ((0 : Int) ≤ 1280 ∧ (1280 : Int) ≤ 1920 ∧ (0 : Int) ≤ 720 ∧ (720 : Int) ≤ 1080
        ∧ ((1920 : Int) - 1280).tdiv 5 ≤ (SetupViewfinder 1920 1080).right
        ∧ ((1080 : Int) - 720).tdiv 5 ≤ (SetupViewfinder 1920 1080).bottom)
      ∧ (SetupViewfinder 1920 1080).left
          ≤ (ApplyLensRestrictions (SetupViewfinder 1920 1080) ⟨1280, 720, 1920, 1080⟩).left
      ∧ (ApplyLensRestrictions (SetupViewfinder 1920 1080) ⟨1280, 720, 1920, 1080⟩).left
            + (ApplyLensRestrictions (SetupViewfinder 1920 1080) ⟨1280, 720, 1920, 1080⟩).right
          ≤ (SetupViewfinder 1920 1080).left + (SetupViewfinder 1920 1080).right
      ∧ (SetupViewfinder 1920 1080).top
          ≤ (ApplyLensRestrictions (SetupViewfinder 1920 1080) ⟨1280, 720, 1920, 1080⟩).top
      ∧ (ApplyLensRestrictions (SetupViewfinder 1920 1080) ⟨1280, 720, 1920, 1080⟩).top
            + (ApplyLensRestrictions (SetupViewfinder 1920 1080) ⟨1280, 720, 1920, 1080⟩).bottom
          ≤ (SetupViewfinder 1920 1080).top + (SetupViewfinder 1920 1080).bottom :=
  have key := ApplyLensRestrictions_inside_viewfinder (SetupViewfinder 1920 1080)
    ⟨1280, 720, 1920, 1080⟩ (by decide) (by decide) (by decide) (by decide) (by decide)
    (by decide)
  ⟨by decide, key.1, key.2.1, key.2.2.1, key.2.2.2.1⟩

end KinectUI
